import Mathlib

set_option autoImplicit false
set_option maxHeartbeats 1000000

/-!
Shallow embedding of the template-aware PowerPoint generation engine of
`app.py` (class `PPTGenerator`): layout classification
(`_identify_content_layouts`, `_has_content_placeholders`), layout selection
(`_get_smart_layout`, `_get_next_content_layout`), placeholder resolution and
content writing (`_create_content_slide`), and deck assembly
(`create_presentation`).

Machine-level conventions: python-pptx shapes are modelled by a `Shape`
record carrying the fields the engine inspects; a presentation is an
ordered layout catalog plus a mutable slide sequence; `pptx` calls that the
code wraps in `try/except` and that cannot fail in the structural model are
total, while the probe of `_has_content_placeholders`, whose `except` branch
the code makes significant, takes an `Except` input.
-/

/-- Substring occurrence on character lists: `pat` occurs somewhere in the
    second list.  Models Python's `pat in s` on strings. -/
def charsSub (pat : List Char) : List Char → Bool
  | [] => pat.isEmpty
  | c :: cs => pat.isPrefixOf (c :: cs) || charsSub pat cs

/-- `containsSub s pat`: Python's `pat in s`. -/
def containsSub (s pat : String) : Bool :=
  charsSub pat.data s.data

/-- Python's `str.lower()`, computed characterwise over the string's data
    (kernel-reducible). -/
def lowerStr (s : String) : String :=
  String.mk (s.data.map Char.toLower)

/-- Drop leading whitespace from a character list. -/
def dropWS : List Char → List Char
  | [] => []
  | c :: cs => if c.isWhitespace then dropWS cs else c :: cs

/-- Python's `str.strip()`: remove leading and trailing whitespace
    (kernel-reducible). -/
def trimStr (s : String) : String :=
  String.mk ((dropWS (dropWS s.data.reverse).reverse))

/-- The bullet glyph prepended by `_create_content_slide` when writing into a
    free text frame or a synthesized text box (`p.text = f"• {point}"`). -/
def bulleted (points : List String) : List String :=
  points.map (fun p => "• " ++ p)

/-- A shape as the engine observes it through python-pptx: `is_placeholder`,
    `placeholder_format.idx`, `name`, whether it exposes a `text_frame`, the
    paragraphs of that text frame, and an optional explicit position
    (left, top, width, height in EMU) for free-floating text boxes. -/
structure Shape where
  isPlaceholder : Bool
  phIdx : Nat
  name : String
  hasTextFrame : Bool
  paragraphs : List String
  pos : Option (Nat × Nat × Nat × Nat)
deriving DecidableEq

def defaultShape : Shape :=
  ⟨false, 0, "", false, [], none⟩

instance : Inhabited Shape := ⟨defaultShape⟩

/-- A slide layout: its `name` and the shapes a slide instantiated from it
    receives. -/
structure Layout where
  name : String
  shapes : List Shape
deriving DecidableEq

def defaultLayout : Layout := ⟨"", []⟩

instance : Inhabited Layout := ⟨defaultLayout⟩

/-- A live slide: index of the layout it was instantiated from, its shapes,
    and optional speaker notes. -/
structure Slide where
  layoutIndex : Nat
  shapes : List Shape
  notes : Option String
deriving DecidableEq

/-- A presentation: ordered layout catalog and mutable slide sequence. -/
structure Pres where
  layouts : List Layout
  slides : List Slide
deriving DecidableEq

/-- One outline entry (`slide_data`): title, bullet points, optional notes. -/
structure SlideSpec where
  title : String
  points : List String
  notes : Option String
deriving DecidableEq

/-- The outline returned by the LLM orchestrator. -/
structure Outline where
  title : String
  slides : List SlideSpec
deriving DecidableEq

/-- The mutable state of a `PPTGenerator` instance: the presentation, the
    catalog `content_layouts` of `(index, layout)` pairs, and the rotation
    cursor `current_layout_index`. -/
structure GenState where
  pres : Pres
  contentLayouts : List (Nat × Layout)
  currentLayoutIndex : Nat
deriving DecidableEq

/-- Index of the first element satisfying `p` (models Python's
    first-match `for` loops with `break`). -/
def findFirst {α : Type} (p : α → Bool) : List α → Option Nat
  | [] => none
  | x :: xs => if p x then some 0 else (findFirst p xs).map (fun n => n + 1)

/-- Replace the element at index `i` by `f` of it; out-of-range is the
    identity. -/
def modifyIdx {α : Type} (f : α → α) : Nat → List α → List α
  | _, [] => []
  | 0, x :: xs => f x :: xs
  | n + 1, x :: xs => x :: modifyIdx f n xs

/-- Index of the last element satisfying `p` (models a Python `for` loop
    that keeps overwriting a variable on every match). -/
def lastIdx? {α : Type} (p : α → Bool) (xs : List α) : Option Nat :=
  match findFirst p xs.reverse with
  | some k => some (xs.length - 1 - k)
  | none => none

/-! ### Layout classification (`_identify_content_layouts`) -/

/-- The `content_keywords` list of `_identify_content_layouts`. -/
def contentKeywords : List String :=
  ["content", "bullet", "text", "two content", "comparison",
   "title and content", "section header", "picture with caption",
   "content with caption", "blank"]

/-- The `title_keywords` list of `_identify_content_layouts`. -/
def titleKeywords : List String := ["title", "section"]

/-- The skip test: `any(keyword in layout_name for keyword in
    ['title slide', 'title only'])` on the lowercased layout name. -/
def skippedAsTitle (l : Layout) : Bool :=
  ["title slide", "title only"].any (fun k => containsSub (lowerStr l.name) k)

/-- Name check against `content_keywords`. -/
def nameContentKeyword (l : Layout) : Bool :=
  contentKeywords.any (fun k => containsSub (lowerStr l.name) k)

/-- Name check against `title_keywords`. -/
def nameTitleKeyword (l : Layout) : Bool :=
  titleKeywords.any (fun k => containsSub (lowerStr l.name) k)

/-- The `is_content_layout` chain for a layout that was not skipped:
    a content keyword in the name, else a successful structural probe,
    else the absence of any title keyword. -/
def layoutIsContent (l : Layout) (probe : Bool) : Bool :=
  nameContentKeyword l || probe || !nameTitleKeyword l

/-- The body of `_has_content_placeholders` applied to the shapes of the
    temporary slide: a text-capable placeholder with `idx > 0`, else a
    non-placeholder shape with a text frame. -/
def hasContentFromShapes (shapes : List Shape) : Bool :=
  if shapes.any (fun sh => sh.isPlaceholder && decide (0 < sh.phIdx) && sh.hasTextFrame)
  then true
  else shapes.any (fun sh => sh.hasTextFrame && !sh.isPlaceholder)

/-- `_has_content_placeholders` with its `try/except`: the probe of the
    layout either yields the shapes of the temporary slide or raises, and the
    `except` branch returns `True` ("assume it's usable if we can't check"). -/
def hasContentPlaceholdersChecked : Except String (List Shape) → Bool
  | Except.error _ => true
  | Except.ok shapes => hasContentFromShapes shapes

/-- `slides.add_slide(layout)`: the new slide receives the layout's shapes. -/
def instantiateSlide (li : Nat) (l : Layout) : Slide :=
  ⟨li, l.shapes, none⟩

/-- The stateful run of `_has_content_placeholders`: append a temporary
    slide instantiated from the layout, inspect it, then delete the last
    slide of the presentation. -/
def hasContentPlaceholdersRun (p : Pres) (li : Nat) (l : Layout) : Pres × Bool :=
  let p1 : Pres := ⟨p.layouts, p.slides ++ [instantiateSlide li l]⟩
  let b := hasContentPlaceholdersChecked (Except.ok l.shapes)
  (⟨p1.layouts, p1.slides.dropLast⟩, b)

/-- One iteration of the classification loop over `(i, layout)`:
    skip pure title layouts, then the `is_content_layout` chain, probing the
    presentation only when the content-keyword check fails. -/
def identifyStep (acc : Pres × List (Nat × Layout)) (il : Nat × Layout) :
    Pres × List (Nat × Layout) :=
  if skippedAsTitle il.2 then acc
  else if nameContentKeyword il.2 then (acc.1, acc.2 ++ [il])
  else
    let pr := hasContentPlaceholdersRun acc.1 il.1 il.2
    if pr.2 then (pr.1, acc.2 ++ [il])
    else if !nameTitleKeyword il.2 then (pr.1, acc.2 ++ [il])
    else (pr.1, acc.2)

/-- The degraded fallback when no content layout was found:
    `for i in range(min(len(layouts), 3)): if i > 0: append (i, layouts[i])`. -/
def fallbackContentLayouts (layouts : List Layout) : List (Nat × Layout) :=
  (List.range (min layouts.length 3)).filterMap
    (fun i => if 0 < i then some (i, layouts.getD i defaultLayout) else none)

/-- The per-layout classification predicate implemented by the loop body of
    `_identify_content_layouts` (with the structural probe evaluated on the
    layout's own shapes). -/
def classPred (il : Nat × Layout) : Bool :=
  !skippedAsTitle il.2 && layoutIsContent il.2 (hasContentFromShapes il.2.shapes)

/-- The content-layout catalog `_identify_content_layouts` produces, as a
    pure function of the layout list. -/
def identifyContentLayouts (layouts : List Layout) : List (Nat × Layout) :=
  let cls := layouts.enum.filter classPred
  if cls.isEmpty then fallbackContentLayouts layouts else cls

/-- The stateful run of `_identify_content_layouts`: folds the loop over the
    enumerated layout catalog, threading the presentation through the
    temporary-slide probes, then applies the degraded fallback. -/
def identifyRun (p : Pres) : Pres × List (Nat × Layout) :=
  let r := p.layouts.enum.foldl identifyStep (p, [])
  (r.1, if r.2.isEmpty then fallbackContentLayouts p.layouts else r.2)

/-! ### Layout selection (`_get_smart_layout`, `_get_next_content_layout`) -/

/-- The scoring chain of `_get_smart_layout`, in the source's `elif` order. -/
def scoreLayout (title : String) (numPoints : Nat) (l : Layout) : Nat :=
  let n := lowerStr l.name
  let t := lowerStr title
  if decide (numPoints ≤ 2) && containsSub n "two content" then 3
  else if decide (4 < numPoints) && containsSub n "bullet" then 3
  else if containsSub n "comparison" && (containsSub t "vs" || containsSub t "comparison") then 4
  else if containsSub n "section" && (containsSub t "introduction" || containsSub t "conclusion") then 2
  else 1

/-- First element of maximal third component.  Models
    `suitable_layouts.sort(key=lambda x: x[2], reverse=True)` followed by
    `suitable_layouts[0]`: Python's sort is stable, so the head of the sorted
    list is the first-seen element attaining the maximal score. -/
def firstMaxBy : List (Nat × Layout × Nat) → Option (Nat × Layout × Nat)
  | [] => none
  | x :: xs =>
    match firstMaxBy xs with
    | none => some x
    | some y => if y.2.2 > x.2.2 then some y else some x

/-- The `suitable_layouts` list: every content layout paired with its score. -/
def mapScored (t : String) (n : Nat) (cl : List (Nat × Layout)) :
    List (Nat × Layout × Nat) :=
  cl.map (fun il => (il.1, il.2, scoreLayout t n il.2))

/-- `_get_next_content_layout`: with an empty catalog fall back to layout 1
    (or layout 0 of a single-layout document); otherwise return the catalog
    entry at the rotation cursor and advance the cursor modulo the catalog
    size. -/
def getNextContentLayout (st : GenState) : GenState × (Nat × Layout) :=
  if st.contentLayouts.isEmpty then
    if 1 < st.pres.layouts.length then
      (st, (1, st.pres.layouts.getD 1 defaultLayout))
    else
      (st, (0, st.pres.layouts.getD 0 defaultLayout))
  else
    let il := st.contentLayouts.getD st.currentLayoutIndex (0, defaultLayout)
    ({ st with currentLayoutIndex :=
        (st.currentLayoutIndex + 1) % st.contentLayouts.length }, il)

/-- `_get_smart_layout`: rotation when the catalog is empty, otherwise the
    first-seen layout of maximal score; the trailing rotation fallback is
    reached only if `suitable_layouts` were empty, which cannot happen for a
    nonempty catalog since every layout receives the default score 1. -/
def getSmartLayout (st : GenState) (sd : SlideSpec) : GenState × (Nat × Layout) :=
  if st.contentLayouts.isEmpty then getNextContentLayout st
  else
    match firstMaxBy (mapScored sd.title sd.points.length st.contentLayouts) with
    | some b => (st, (b.1, b.2.1))
    | none => getNextContentLayout st

/-! ### Content writing (`_create_content_slide`) -/

/-- `text_frame.text` of a shape: its paragraphs joined by newlines. -/
def shapeText (sh : Shape) : String :=
  String.intercalate "\n" sh.paragraphs

/-- The title placeholder test used by all three title-setting methods of
    `_create_content_slide` (they all target the placeholder with idx 0). -/
def titlePh (sh : Shape) : Bool :=
  sh.isPlaceholder && sh.phIdx == 0

/-- Negation of `titlePh`, for frame statements about non-title shapes. -/
def nonTitlePh (sh : Shape) : Bool :=
  !titlePh sh

/-- Set the slide title: `text_frame.text = title` on the first placeholder
    with idx 0, a no-op when none exists (the slide proceeds title-less). -/
def writeTitle (shapes : List Shape) (title : String) : List Shape :=
  match findFirst titlePh shapes with
  | some i => modifyIdx (fun sh => { sh with paragraphs := [title] }) i shapes
  | none => shapes

/-- Strategy 1: placeholder with idx 1 and a text frame. -/
def strat1 (sh : Shape) : Bool :=
  sh.isPlaceholder && sh.phIdx == 1 && sh.hasTextFrame

/-- Strategy 2: non-title placeholder whose name contains "content" but not
    "picture". -/
def strat2 (sh : Shape) : Bool :=
  sh.isPlaceholder && decide (0 < sh.phIdx) && sh.hasTextFrame &&
    containsSub (lowerStr sh.name) "content" && !containsSub (lowerStr sh.name) "picture"

/-- Strategy 3: non-title placeholder whose name contains none of the
    picture/image/photo/chart/table words. -/
def strat3 (sh : Shape) : Bool :=
  sh.isPlaceholder && decide (0 < sh.phIdx) && sh.hasTextFrame &&
    !(["picture", "image", "photo", "chart", "table"].any
        (fun w => containsSub (lowerStr sh.name) w))

/-- Strategy 4: any non-title placeholder with a text frame. -/
def strat4 (sh : Shape) : Bool :=
  sh.isPlaceholder && decide (0 < sh.phIdx) && sh.hasTextFrame

/-- The ordered placeholder search of strategies 1-4: index of the first
    shape each strategy accepts, first successful strategy wins. -/
def placeholderSearch (shapes : List Shape) : Option Nat :=
  match findFirst strat1 shapes with
  | some i => some i
  | none =>
    match findFirst strat2 shapes with
    | some i => some i
    | none =>
      match findFirst strat3 shapes with
      | some i => some i
      | none => findFirst strat4 shapes

/-- Strategy 5 acceptance: any shape with a text frame whose current text
    (stripped) differs from the slide's own title (stripped). -/
def altFrame (title : String) (sh : Shape) : Bool :=
  sh.hasTextFrame && !(trimStr (shapeText sh) == trimStr title)

/-- The strategy-5 scan over all shapes of the slide. -/
def altFrameSearch (shapes : List Shape) (title : String) : Option Nat :=
  findFirst (altFrame title) shapes

/-- Overwrite the paragraphs of the shape at index `i` (models
    `text_frame.clear()` followed by writing one paragraph per point). -/
def writeAt (shapes : List Shape) (i : Nat) (ps : List String) : List Shape :=
  modifyIdx (fun sh => { sh with paragraphs := ps }) i shapes

/-- The text box synthesized by strategy 6:
    `slide.shapes.add_textbox(Inches(1), Inches(2), Inches(8), Inches(4))`,
    filled with one bulleted paragraph per point. -/
def newTextBox (points : List String) : Shape :=
  ⟨false, 0, "TextBox", true, bulleted points,
   some (914400, 1828800, 7315200, 3657600)⟩

/-- The body-resolution chain of `_create_content_slide` for a nonempty
    point list: strategies 1-4 clear the found placeholder and write the
    points unprefixed; strategy 5 writes bulleted points, clearing first when
    the existing text is shorter than 10 characters and appending after it
    otherwise; strategy 6 appends a synthesized text box. -/
def resolveAndWriteBody (shapes : List Shape) (title : String)
    (points : List String) : List Shape :=
  match placeholderSearch shapes with
  | some i => writeAt shapes i points
  | none =>
    match altFrameSearch shapes title with
    | some i =>
      let sh := shapes.getD i defaultShape
      if (trimStr (shapeText sh)).length < 10 then writeAt shapes i (bulleted points)
      else writeAt shapes i (sh.paragraphs ++ bulleted points)
    | none => shapes ++ [newTextBox points]

/-- `slide_data.get("notes", "")` with Python truthiness: empty or missing
    notes attach nothing. -/
def effectiveNotes : Option String → Option String
  | none => none
  | some s => if s.isEmpty then none else some s

/-- `_create_content_slide`: select a layout, instantiate a slide from it,
    set the title, resolve and write the body only when there are points,
    attach notes, and append the slide to the presentation. -/
def createContentSlide (st : GenState) (sd : SlideSpec) : GenState :=
  let r := getSmartLayout st sd
  let st1 := r.1
  let il := r.2
  let shapes1 := writeTitle il.2.shapes sd.title
  let shapes2 :=
    if sd.points.isEmpty then shapes1
    else resolveAndWriteBody shapes1 sd.title sd.points
  { st1 with pres :=
      { st1.pres with slides :=
          st1.pres.slides ++ [⟨il.1, shapes2, effectiveNotes sd.notes⟩] } }

/-! ### Deck assembly (`create_presentation`) -/

/-- Subtitle placeholder test of the title-slide loop (idx 1). -/
def subtitlePh (sh : Shape) : Bool :=
  sh.isPlaceholder && sh.phIdx == 1

/-- Build the title slide: instantiate `slide_layouts[0]`, write the outline
    title to the last placeholder with idx 0 found by the loop and the
    generated-date subtitle to the last placeholder with idx 1. -/
def mkTitleSlide (l : Layout) (title subtitleText : String) : Slide :=
  let shapes1 :=
    match lastIdx? titlePh l.shapes with
    | some i => modifyIdx (fun sh => { sh with paragraphs := [title] }) i l.shapes
    | none => l.shapes
  let shapes2 :=
    match lastIdx? subtitlePh shapes1 with
    | some i => modifyIdx (fun sh => { sh with paragraphs := [subtitleText] }) i shapes1
    | none => shapes1
  ⟨0, shapes2, none⟩

/-- `create_presentation`: classify the template's layouts (threading the
    temporary-slide probes through the loaded presentation), drop every
    pre-existing slide, add the title slide bound to layout 0, then one
    content slide per outline entry.  `none` models the outer `except`
    branch, reachable in the structural model only for an empty layout
    catalog (`slide_layouts[0]` raising). -/
def createPresentation (tpl : Pres) (o : Outline) (today : String) :
    Option GenState :=
  if tpl.layouts.isEmpty then none
  else
    let r := identifyRun tpl
    let titleSlide :=
      mkTitleSlide (r.1.layouts.getD 0 defaultLayout) o.title
        ("Generated on " ++ today)
    let st0 : GenState := ⟨⟨r.1.layouts, [titleSlide]⟩, r.2, 0⟩
    some (o.slides.foldl createContentSlide st0)

/-- Layout indices of the assembled slides (empty for a failed assembly). -/
def layoutIdxTrace : Option GenState → List Nat
  | none => []
  | some st => st.pres.slides.map Slide.layoutIndex

/-- A shape holds the body points: the points, plain or bulleted, form a
    suffix of its paragraphs. -/
def carriesBody (points : List String) (sh : Shape) : Bool :=
  points.isSuffixOf sh.paragraphs || (bulleted points).isSuffixOf sh.paragraphs

/-- The slide holds the body points in some shape. -/
def slideCarriesBody (points : List String) (sl : Slide) : Bool :=
  sl.shapes.any (carriesBody points)

/-- The most recently appended slide holds the body points. -/
def lastSlideCarriesBody (points : List String) (st : GenState) : Bool :=
  match st.pres.slides.getLast? with
  | some sl => slideCarriesBody points sl
  | none => false

/-! Spec-side selection functions, used to state the amended tie-breaking
    behaviour of `_get_smart_layout`. -/

/-- Maximal score over a content catalog. -/
def maxScoreOf (t : String) (n : Nat) : List (Nat × Layout) → Nat
  | [] => 0
  | il :: rest => max (scoreLayout t n il.2) (maxScoreOf t n rest)

/-- First catalog entry attaining a given score. -/
def firstWithScore (t : String) (n : Nat) (s : Nat) :
    List (Nat × Layout) → Option (Nat × Layout)
  | [] => none
  | il :: rest =>
    if scoreLayout t n il.2 == s then some il else firstWithScore t n s rest

/-! ### Generic list lemmas -/

theorem findFirst_spec {α : Type} (p : α → Bool) (d : α) :
    ∀ (xs : List α) (i : Nat), findFirst p xs = some i →
      i < xs.length ∧ p (xs.getD i d) = true := by
  intro xs
  induction xs with
  | nil => intro i h; simp [findFirst] at h
  | cons x xs ih =>
    intro i h
    by_cases hx : p x
    · simp [findFirst, hx] at h
      subst h
      simpa using hx
    · simp [findFirst, hx] at h
      obtain ⟨j, hj, rfl⟩ := h
      have := ih j hj
      exact ⟨by simpa [Nat.succ_lt_succ_iff] using this.1, by simpa using this.2⟩

theorem modifyIdx_length {α : Type} (f : α → α) :
    ∀ (i : Nat) (xs : List α), (modifyIdx f i xs).length = xs.length := by
  intro i xs
  induction xs generalizing i with
  | nil => cases i <;> rfl
  | cons x xs ih => cases i with
    | zero => rfl
    | succ n => simpa [modifyIdx] using ih n

theorem modifyIdx_getD_self {α : Type} (f : α → α) (d : α) :
    ∀ (xs : List α) (i : Nat), i < xs.length →
      (modifyIdx f i xs).getD i d = f (xs.getD i d) := by
  intro xs
  induction xs with
  | nil => intro i h; simp at h
  | cons x xs ih =>
    intro i h
    cases i with
    | zero => rfl
    | succ n =>
      have : n < xs.length := by simpa [Nat.succ_lt_succ_iff] using h
      simpa [modifyIdx] using ih n this

theorem modifyIdx_getD_ne {α : Type} (f : α → α) (d : α) :
    ∀ (xs : List α) (i j : Nat), i ≠ j →
      (modifyIdx f i xs).getD j d = xs.getD j d := by
  intro xs
  induction xs with
  | nil => intro i j _; cases i <;> rfl
  | cons x xs ih =>
    intro i j hne
    cases i with
    | zero => cases j with
      | zero => exact absurd rfl hne
      | succ m => rfl
    | succ n => cases j with
      | zero => rfl
      | succ m =>
        have : n ≠ m := fun h => hne (by rw [h])
        simpa [modifyIdx] using ih n m this

theorem getD_mem {α : Type} (d : α) :
    ∀ (xs : List α) (i : Nat), i < xs.length → xs.getD i d ∈ xs := by
  intro xs
  induction xs with
  | nil => intro i h; simp at h
  | cons x xs ih =>
    intro i h
    cases i with
    | zero => simp
    | succ n =>
      have : n < xs.length := by simpa [Nat.succ_lt_succ_iff] using h
      simpa using Or.inr (ih n this)

theorem filter_modifyIdx_drop {α : Type} (q : α → Bool) (f : α → α) (d : α) :
    ∀ (xs : List α) (i : Nat), i < xs.length →
      q (xs.getD i d) = false → q (f (xs.getD i d)) = false →
      (modifyIdx f i xs).filter q = xs.filter q := by
  intro xs
  induction xs with
  | nil => intro i h; simp at h
  | cons x xs ih =>
    intro i h hq hqf
    cases i with
    | zero =>
      simp only [List.getD_cons_zero] at hq hqf
      simp [modifyIdx, List.filter_cons, hq, hqf]
    | succ n =>
      have hn : n < xs.length := by simpa [Nat.succ_lt_succ_iff] using h
      simp only [List.getD_cons_succ] at hq hqf
      simp [modifyIdx, List.filter_cons, ih n hn hq hqf]

theorem head?_append_left {α : Type} (xs ys : List α) (h : xs ≠ []) :
    (xs ++ ys).head? = xs.head? := by
  cases xs with
  | nil => exact absurd rfl h
  | cons x xs => rfl

/-! ### Classification lemmas -/

theorem hcpRun_fst (p : Pres) (li : Nat) (l : Layout) :
    (hasContentPlaceholdersRun p li l).1 = p := by
  simp [hasContentPlaceholdersRun, List.dropLast_concat]

theorem hcpRun_snd (p : Pres) (li : Nat) (l : Layout) :
    (hasContentPlaceholdersRun p li l).2 = hasContentFromShapes l.shapes := rfl

theorem identifyStep_eq (p : Pres) (cls : List (Nat × Layout)) (il : Nat × Layout) :
    identifyStep (p, cls) il = (p, cls ++ if classPred il then [il] else []) := by
  unfold identifyStep classPred layoutIsContent
  by_cases h1 : skippedAsTitle il.2 <;>
    by_cases h2 : nameContentKeyword il.2 <;>
      by_cases h3 : hasContentFromShapes il.2.shapes <;>
        by_cases h4 : nameTitleKeyword il.2 <;>
          simp [h1, h2, h3, h4, hcpRun_fst, hcpRun_snd]

theorem foldl_identifyStep :
    ∀ (xs : List (Nat × Layout)) (p : Pres) (cls : List (Nat × Layout)),
      xs.foldl identifyStep (p, cls) = (p, cls ++ xs.filter classPred) := by
  intro xs
  induction xs with
  | nil => intro p cls; simp
  | cons x xs ih =>
    intro p cls
    rw [List.foldl_cons, identifyStep_eq, ih, List.filter_cons]
    by_cases hx : classPred x <;> simp [hx]

theorem identifyRun_eq (p : Pres) :
    identifyRun p = (p, identifyContentLayouts p.layouts) := by
  unfold identifyRun identifyContentLayouts
  rw [foldl_identifyStep]
  simp

/-! ### Selection lemmas -/

theorem firstMaxBy_none :
    ∀ (xs : List (Nat × Layout × Nat)), firstMaxBy xs = none → xs = [] := by
  intro xs h
  cases xs with
  | nil => rfl
  | cons x xs =>
    unfold firstMaxBy at h
    cases hx : firstMaxBy xs <;> simp [hx] at h
    split at h <;> simp at h

theorem firstMaxBy_mem :
    ∀ (xs : List (Nat × Layout × Nat)) (y : Nat × Layout × Nat),
      firstMaxBy xs = some y → y ∈ xs := by
  intro xs
  induction xs with
  | nil => intro y h; simp [firstMaxBy] at h
  | cons x xs ih =>
    intro y h
    unfold firstMaxBy at h
    cases hx : firstMaxBy xs with
    | none => rw [hx] at h; simp at h; simp [h]
    | some z =>
      rw [hx] at h
      by_cases hz : z.2.2 > x.2.2
      · simp [hz] at h; subst h; exact List.mem_cons_of_mem _ (ih _ hx)
      · simp [hz] at h; simp [h]

theorem firstMaxBy_scored (t : String) (n : Nat) :
    ∀ (cl : List (Nat × Layout)) (b : Nat × Layout × Nat),
      firstMaxBy (mapScored t n cl) = some b →
      b.2.2 = scoreLayout t n b.2.1 ∧
      b.2.2 = maxScoreOf t n cl ∧
      firstWithScore t n (maxScoreOf t n cl) cl = some (b.1, b.2.1) := by
  intro cl
  induction cl with
  | nil => intro b h; simp [mapScored, firstMaxBy] at h
  | cons a rest ih =>
    intro b h
    have hmap : mapScored t n (a :: rest)
        = (a.1, a.2, scoreLayout t n a.2) :: mapScored t n rest := rfl
    rw [hmap] at h
    unfold firstMaxBy at h
    cases hr : firstMaxBy (mapScored t n rest) with
    | none =>
      rw [hr] at h
      simp at h
      have hnil : mapScored t n rest = [] := firstMaxBy_none _ hr
      have hrest : rest = [] := by
        simpa [mapScored] using hnil
      subst hrest
      subst h
      refine ⟨rfl, ?_, ?_⟩
      · simp [maxScoreOf]
      · simp [maxScoreOf, firstWithScore]
    | some y =>
      rw [hr] at h
      obtain ⟨hy1, hy2, hy3⟩ := ih y hr
      by_cases hgt : y.2.2 > (a.1, a.2, scoreLayout t n a.2).2.2
      · simp only [if_pos hgt] at h
        have hb := Option.some.inj h
        subst hb
        simp only at hgt
        have hmax : maxScoreOf t n (a :: rest) = maxScoreOf t n rest := by
          show max (scoreLayout t n a.2) (maxScoreOf t n rest) = maxScoreOf t n rest
          exact Nat.max_eq_right (Nat.le_of_lt (hy2 ▸ hgt))
        refine ⟨hy1, by rw [hmax]; exact hy2, ?_⟩
        rw [hmax]
        show (if scoreLayout t n a.2 == maxScoreOf t n rest then some a
              else firstWithScore t n (maxScoreOf t n rest) rest) = _
        have hne : scoreLayout t n a.2 ≠ maxScoreOf t n rest := by
          intro hEq
          rw [← hy2] at hEq
          exact absurd hgt (by rw [hEq]; exact Nat.lt_irrefl _)
        simp [hne, hy3]
      · simp only [if_neg hgt] at h
        have hb := Option.some.inj h
        subst hb
        simp only at hgt
        have hle : y.2.2 ≤ scoreLayout t n a.2 := Nat.le_of_not_lt hgt
        have hmax : maxScoreOf t n (a :: rest) = scoreLayout t n a.2 := by
          show max (scoreLayout t n a.2) (maxScoreOf t n rest) = scoreLayout t n a.2
          exact Nat.max_eq_left (hy2 ▸ hle)
        refine ⟨rfl, by rw [hmax], ?_⟩
        rw [hmax]
        show (if scoreLayout t n a.2 == scoreLayout t n a.2 then some a
              else firstWithScore t n (scoreLayout t n a.2) rest) = _
        simp

/-! ### Content-slide structural lemmas -/

theorem gncl_state (st : GenState) :
    (getNextContentLayout st).1.pres = st.pres ∧
    (getNextContentLayout st).1.contentLayouts = st.contentLayouts := by
  unfold getNextContentLayout
  by_cases h : st.contentLayouts.isEmpty
  · by_cases h2 : 1 < st.pres.layouts.length <;> simp [h, h2]
  · simp [h]

theorem gsl_state (st : GenState) (sd : SlideSpec) :
    (getSmartLayout st sd).1.pres = st.pres ∧
    (getSmartLayout st sd).1.contentLayouts = st.contentLayouts := by
  unfold getSmartLayout
  by_cases h : st.contentLayouts.isEmpty
  · simpa [h] using gncl_state st
  · cases hm : firstMaxBy (mapScored sd.title sd.points.length st.contentLayouts) with
    | none => simpa [h, hm] using gncl_state st
    | some b => simp [h, hm]

theorem ccs_slides (st : GenState) (sd : SlideSpec) :
    (createContentSlide st sd).pres.slides
      = st.pres.slides ++
        [⟨(getSmartLayout st sd).2.1,
          (if sd.points.isEmpty
           then writeTitle (getSmartLayout st sd).2.2.shapes sd.title
           else resolveAndWriteBody
                  (writeTitle (getSmartLayout st sd).2.2.shapes sd.title)
                  sd.title sd.points),
          effectiveNotes sd.notes⟩] ∧
    (createContentSlide st sd).pres.layouts = st.pres.layouts ∧
    (createContentSlide st sd).contentLayouts = st.contentLayouts := by
  obtain ⟨h1, h2⟩ := gsl_state st sd
  unfold createContentSlide
  refine ⟨?_, ?_, ?_⟩ <;> simp [h1, h2]

theorem foldl_ccs_len :
    ∀ (specs : List SlideSpec) (st : GenState),
      (specs.foldl createContentSlide st).pres.slides.length
        = st.pres.slides.length + specs.length := by
  intro specs
  induction specs with
  | nil => intro st; simp
  | cons s specs ih =>
    intro st
    rw [List.foldl_cons, ih]
    have := (ccs_slides st s).1
    simp [this]
    omega

theorem foldl_ccs_layouts :
    ∀ (specs : List SlideSpec) (st : GenState),
      (specs.foldl createContentSlide st).pres.layouts = st.pres.layouts := by
  intro specs
  induction specs with
  | nil => intro st; rfl
  | cons s specs ih =>
    intro st
    rw [List.foldl_cons, ih, (ccs_slides st s).2.1]

theorem foldl_ccs_head :
    ∀ (specs : List SlideSpec) (st : GenState), st.pres.slides ≠ [] →
      (specs.foldl createContentSlide st).pres.slides.head?
        = st.pres.slides.head? := by
  intro specs
  induction specs with
  | nil => intro st _; rfl
  | cons s specs ih =>
    intro st h
    rw [List.foldl_cons]
    have hs := (ccs_slides st s).1
    have hne : (createContentSlide st s).pres.slides ≠ [] := by
      rw [hs]; simp
    rw [ih _ hne, hs, head?_append_left _ _ h]

/-! ### Body-resolution lemmas -/

theorem carriesBody_of_eq_points (points : List String) (sh : Shape)
    (h : sh.paragraphs = points) : carriesBody points sh = true := by
  unfold carriesBody
  rw [h]
  have : points.isSuffixOf points = true :=
    List.isSuffixOf_iff_suffix.mpr (List.suffix_refl points)
  simp [this]

theorem carriesBody_of_eq_bulleted (points : List String) (sh : Shape)
    (h : sh.paragraphs = bulleted points) : carriesBody points sh = true := by
  unfold carriesBody
  rw [h]
  have : (bulleted points).isSuffixOf (bulleted points) = true :=
    List.isSuffixOf_iff_suffix.mpr (List.suffix_refl _)
  simp [this]

theorem carriesBody_of_append_bulleted (points old : List String) (sh : Shape)
    (h : sh.paragraphs = old ++ bulleted points) : carriesBody points sh = true := by
  unfold carriesBody
  rw [h]
  have : (bulleted points).isSuffixOf (old ++ bulleted points) = true :=
    List.isSuffixOf_iff_suffix.mpr (List.suffix_append old (bulleted points))
  simp [this]

theorem writeAt_getD (shapes : List Shape) (i : Nat) (ps : List String)
    (h : i < shapes.length) :
    (writeAt shapes i ps).getD i defaultShape ∈ writeAt shapes i ps ∧
    ((writeAt shapes i ps).getD i defaultShape).paragraphs = ps := by
  constructor
  · apply getD_mem
    unfold writeAt
    rw [modifyIdx_length]
    exact h
  · unfold writeAt
    rw [modifyIdx_getD_self _ _ _ _ h]

theorem resolve_carries (shapes : List Shape) (title : String) (points : List String) :
    ∃ sh ∈ resolveAndWriteBody shapes title points, carriesBody points sh = true := by
  unfold resolveAndWriteBody
  cases hp : placeholderSearch shapes with
  | some i =>
    have hi : i < shapes.length := by
      unfold placeholderSearch at hp
      cases h1 : findFirst strat1 shapes with
      | some j =>
        rw [h1] at hp
        cases hp
        exact (findFirst_spec strat1 defaultShape shapes i h1).1
      | none =>
        rw [h1] at hp
        cases h2 : findFirst strat2 shapes with
        | some j =>
          rw [h2] at hp
          cases hp
          exact (findFirst_spec strat2 defaultShape shapes i h2).1
        | none =>
          rw [h2] at hp
          cases h3 : findFirst strat3 shapes with
          | some j =>
            rw [h3] at hp
            cases hp
            exact (findFirst_spec strat3 defaultShape shapes i h3).1
          | none =>
            rw [h3] at hp
            exact (findFirst_spec strat4 defaultShape shapes i hp).1
    exact ⟨_, (writeAt_getD shapes i points hi).1,
      carriesBody_of_eq_points points _ (writeAt_getD shapes i points hi).2⟩
  | none =>
    cases ha : altFrameSearch shapes title with
    | some i =>
      have hi : i < shapes.length :=
        (findFirst_spec (altFrame title) defaultShape shapes i ha).1
      by_cases hshort : (trimStr (shapeText (shapes.getD i defaultShape))).length < 10
      · simp only [if_pos hshort]
        exact ⟨_, (writeAt_getD shapes i (bulleted points) hi).1,
          carriesBody_of_eq_bulleted points _ (writeAt_getD shapes i (bulleted points) hi).2⟩
      · simp only [if_neg hshort]
        exact ⟨_, (writeAt_getD shapes i ((shapes.getD i defaultShape).paragraphs ++ bulleted points) hi).1,
          carriesBody_of_append_bulleted points _ _
            (writeAt_getD shapes i ((shapes.getD i defaultShape).paragraphs ++ bulleted points) hi).2⟩
    | none =>
      refine ⟨newTextBox points, by simp, ?_⟩
      exact carriesBody_of_eq_bulleted points _ rfl

/-! ### Title-write lemmas -/

theorem writeTitle_length (shapes : List Shape) (title : String) :
    (writeTitle shapes title).length = shapes.length := by
  unfold writeTitle
  cases h : findFirst titlePh shapes with
  | none => rfl
  | some i => exact modifyIdx_length _ i shapes

theorem writeTitle_filter (shapes : List Shape) (title : String) :
    (writeTitle shapes title).filter nonTitlePh = shapes.filter nonTitlePh := by
  unfold writeTitle
  cases h : findFirst titlePh shapes with
  | none => rfl
  | some i =>
    obtain ⟨hi, hp⟩ := findFirst_spec titlePh defaultShape shapes i h
    apply filter_modifyIdx_drop nonTitlePh _ defaultShape shapes i hi
    · unfold nonTitlePh
      rw [hp]
      rfl
    · show nonTitlePh { shapes.getD i defaultShape with paragraphs := [title] } = false
      unfold nonTitlePh
      have hsame : titlePh { shapes.getD i defaultShape with paragraphs := [title] }
          = titlePh (shapes.getD i defaultShape) := rfl
      rw [hsame, hp]
      rfl

/-! ### Single-layout-document lemmas -/

theorem gsl_idx_zero (st : GenState) (sd : SlideSpec)
    (h1 : ∀ il ∈ st.contentLayouts, il.1 = 0)
    (h2 : st.pres.layouts.length = 1) :
    (getSmartLayout st sd).2.1 = 0 := by
  unfold getSmartLayout
  by_cases he : st.contentLayouts.isEmpty
  · unfold getNextContentLayout
    have : ¬(1 < st.pres.layouts.length) := by omega
    simp [he, this]
  · cases hm : firstMaxBy (mapScored sd.title sd.points.length st.contentLayouts) with
    | none =>
      exfalso
      have hnil := firstMaxBy_none _ hm
      have : st.contentLayouts = [] := by simpa [mapScored] using hnil
      simp [this] at he
    | some b =>
      simp only [he, if_neg, hm]
      obtain ⟨a, ha, hab⟩ := List.mem_map.mp (firstMaxBy_mem _ _ hm)
      have : b.1 = a.1 := by rw [← hab]
      simp [this, h1 a ha]

theorem foldl_ccs_idx_zero :
    ∀ (specs : List SlideSpec) (st : GenState),
      (∀ il ∈ st.contentLayouts, il.1 = 0) →
      st.pres.layouts.length = 1 →
      (∀ s ∈ st.pres.slides, s.layoutIndex = 0) →
      ∀ s ∈ (specs.foldl createContentSlide st).pres.slides, s.layoutIndex = 0 := by
  intro specs
  induction specs with
  | nil => intro st _ _ h3; exact h3
  | cons sp specs ih =>
    intro st h1 h2 h3
    rw [List.foldl_cons]
    apply ih
    · rw [(ccs_slides st sp).2.2]; exact h1
    · rw [(ccs_slides st sp).2.1]; exact h2
    · intro s hs
      rw [(ccs_slides st sp).1] at hs
      rcases List.mem_append.mp hs with h | h
      · exact h3 s h
      · rw [List.mem_singleton.mp h]
        exact gsl_idx_zero st sp h1 h2

theorem icl_singleton_fst (l : Layout) :
    ∀ il ∈ identifyContentLayouts [l], il.1 = 0 := by
  intro il hil
  have henum : ([l] : List Layout).enum = [(0, l)] := rfl
  unfold identifyContentLayouts at hil
  rw [henum, List.filter_cons] at hil
  by_cases hc : classPred (0, l) = true
  · rw [if_pos hc] at hil
    simp only [List.filter_nil, List.isEmpty_cons, if_neg] at hil
    have : il = (0, l) := by simpa using hil
    rw [this]
  · rw [if_neg hc] at hil
    simp only [List.filter_nil, List.isEmpty_nil, if_pos] at hil
    have : fallbackContentLayouts [l] = [] := rfl
    rw [this] at hil
    exact absurd hil (List.not_mem_nil il)

/-! ### Assembly lemmas -/

theorem createPresentation_cons (l0 : Layout) (ls : List Layout)
    (slides : List Slide) (o : Outline) (d : String) :
    createPresentation ⟨l0 :: ls, slides⟩ o d
      = some (o.slides.foldl createContentSlide
          ⟨⟨l0 :: ls, [mkTitleSlide l0 o.title ("Generated on " ++ d)]⟩,
           identifyContentLayouts (l0 :: ls), 0⟩) := by
  unfold createPresentation
  rw [identifyRun_eq]
  simp

/-! ### Claim theorems -/

/-- C7: for a template with layouts `["Title Slide", "Title and Content",
    "Comparison"]` and a slide spec with title `"X vs Y"` and two points,
    classification admits exactly layouts 1 and 2 as content candidates (the
    `"Title Slide"` layout is never a candidate for content), the
    `"Comparison"` layout scores 4 while `"Title and Content"` scores 1, and
    smart selection returns the `"Comparison"` layout. -/
theorem c7_comparison_beats_title_and_content :
    (identifyContentLayouts
        [⟨"Title Slide", []⟩, ⟨"Title and Content", []⟩, ⟨"Comparison", []⟩]).map
        Prod.fst = [1, 2] ∧
    scoreLayout "X vs Y" 2 ⟨"Comparison", []⟩ = 4 ∧
    scoreLayout "X vs Y" 2 ⟨"Title and Content", []⟩ = 1 ∧
    (getSmartLayout
        ⟨⟨[⟨"Title Slide", []⟩, ⟨"Title and Content", []⟩, ⟨"Comparison", []⟩], []⟩,
         identifyContentLayouts
           [⟨"Title Slide", []⟩, ⟨"Title and Content", []⟩, ⟨"Comparison", []⟩],
         0⟩
        ⟨"X vs Y", ["a", "b"], none⟩).2
      = (2, ⟨"Comparison", []⟩) := by
  decide

/-- C8: the temporary slide instantiated by a structural probe is fully
    removed again: `_has_content_placeholders` hands the presentation back
    with its slide sequence unchanged, and the whole classification pass
    leaves the document's slide sequence exactly as it found it. -/
theorem c8_probe_leaves_no_residue (p : Pres) (li : Nat) (l : Layout) :
    (hasContentPlaceholdersRun p li l).1.slides = p.slides ∧
    (identifyRun p).1.slides = p.slides := by
  constructor
  · rw [hcpRun_fst]
  · rw [identifyRun_eq]

/-- C10: when the structural probe of a layout raises, the `except` branch of
    `_has_content_placeholders` reports `True`, and a `True` probe forces the
    classification chain to mark the layout as content regardless of its
    name, so a probe failure can only add a layout to the content set, never
    exclude one. -/
theorem c10_probe_error_reports_content (l : Layout) (e : String) :
    hasContentPlaceholdersChecked (Except.error e) = true ∧
    layoutIsContent l (hasContentPlaceholdersChecked (Except.error e)) = true := by
  refine ⟨rfl, ?_⟩
  unfold layoutIsContent
  simp [hasContentPlaceholdersChecked]

/-- C2 counterexample: a two-entry Content catalog whose layouts both score
    the default 1 (a shared top score) while the rotation cursor stands at 1.
    The claim demands the layout at the cursor (catalog entry 1) and a cursor
    advance to (1+1) % 2 = 0; `_get_smart_layout` instead returns the first
    catalog entry and leaves the cursor untouched, because `suitable_layouts`
    is never empty for a nonempty catalog and ties are broken by the stable
    descending sort, so the rotation fallback is unreachable. -/
theorem c2_rotation_on_ties_cex :
    scoreLayout "t" 1 ⟨"alpha", []⟩ = 1 ∧
    scoreLayout "t" 1 ⟨"beta", []⟩ = 1 ∧
    (getSmartLayout ⟨⟨[], []⟩, [(0, ⟨"alpha", []⟩), (1, ⟨"beta", []⟩)], 1⟩
        ⟨"t", ["p"], none⟩).2 = (0, ⟨"alpha", []⟩) ∧
    (getSmartLayout ⟨⟨[], []⟩, [(0, ⟨"alpha", []⟩), (1, ⟨"beta", []⟩)], 1⟩
        ⟨"t", ["p"], none⟩).2
      ≠ [(0, ⟨"alpha", []⟩), (1, ⟨"beta", []⟩)].getD 1 (0, defaultLayout) ∧
    (getSmartLayout ⟨⟨[], []⟩, [(0, ⟨"alpha", []⟩), (1, ⟨"beta", []⟩)], 1⟩
        ⟨"t", ["p"], none⟩).1.currentLayoutIndex ≠ (1 + 1) % 2 := by
  decide

/-- C2 amended: for every nonempty Content catalog, `_get_smart_layout`
    leaves the generator state (including the rotation cursor) unchanged and
    returns the first catalog entry attaining the maximal score — ties are
    broken in favour of the first-seen layout, and the rotation fallback is
    reached only when the Content catalog is empty. -/
theorem c2_first_max_no_rotation (p : Pres) (cur : Nat) (c0 : Nat × Layout)
    (rest : List (Nat × Layout)) (sd : SlideSpec) :
    (getSmartLayout ⟨p, c0 :: rest, cur⟩ sd).1 = ⟨p, c0 :: rest, cur⟩ ∧
    some (getSmartLayout ⟨p, c0 :: rest, cur⟩ sd).2
      = firstWithScore sd.title sd.points.length
          (maxScoreOf sd.title sd.points.length (c0 :: rest)) (c0 :: rest) := by
  unfold getSmartLayout
  simp only [List.isEmpty_cons, Bool.false_eq_true, if_false]
  cases hm : firstMaxBy (mapScored sd.title sd.points.length (c0 :: rest)) with
  | none =>
    exfalso
    have := firstMaxBy_none _ hm
    simp [mapScored] at this
  | some b =>
    obtain ⟨_, _, hb3⟩ := firstMaxBy_scored sd.title sd.points.length _ b hm
    exact ⟨rfl, hb3.symm⟩

/-- C3 counterexample: in the template `[Blank, Title Slide]` the first (and
    only) Title-classified layout is layout 1 (`skippedAsTitle` is the
    title-only keyword classification), yet the assembled title slide is
    bound to layout 0, contradicting the claim that it is bound to the first
    Title-classified layout whenever one exists. -/
theorem c3_title_binding_cex :
    skippedAsTitle ⟨"Blank", []⟩ = false ∧
    skippedAsTitle ⟨"Title Slide", []⟩ = true ∧
    layoutIdxTrace
        (createPresentation ⟨[⟨"Blank", []⟩, ⟨"Title Slide", []⟩], []⟩
          ⟨"T", []⟩ "Jan 1") = [0] ∧
    (0 : Nat) ≠ 1 := by
  decide

/-- C4 counterexample: a slide whose only shape is a free text frame with
    short existing text resolves through the short-existing-text branch of
    strategy (5) — strategies (1)-(4) find nothing, the alternative scan
    finds shape 0, and its text is under the 10-character threshold — yet
    reading the body back yields `"• A", "• B", "• C"`, not the unprefixed
    `"A", "B", "C"` the claim asserts for that branch. -/
theorem c4_roundtrip_cex :
    placeholderSearch [⟨false, 0, "box", true, [""], none⟩] = none ∧
    altFrameSearch [⟨false, 0, "box", true, [""], none⟩] "T" = some 0 ∧
    (trimStr (shapeText (⟨false, 0, "box", true, [""], none⟩ : Shape))).length < 10 ∧
    (resolveAndWriteBody [⟨false, 0, "box", true, [""], none⟩] "T"
        ["A", "B", "C"]).map Shape.paragraphs = [["• A", "• B", "• C"]] ∧
    ¬(["• A", "• B", "• C"] = ["A", "B", "C"]) := by
  decide

/-- C3 amended: for every template with a nonempty layout catalog, the title
    slide is bound to layout 0 — `create_presentation` always uses
    `slide_layouts[0]`, regardless of which layouts are classified Title. -/
theorem c3_title_always_layout_zero (tpl : Pres) (o : Outline) (d : String)
    (h : tpl.layouts ≠ []) :
    (layoutIdxTrace (createPresentation tpl o d)).head? = some 0 := by
  obtain ⟨layouts, slides⟩ := tpl
  cases layouts with
  | nil => exact absurd rfl h
  | cons l0 ls =>
    rw [createPresentation_cons]
    unfold layoutIdxTrace
    rw [List.head?_map, foldl_ccs_head _ _ (by simp)]
    rfl

/-- C3 amended witness: a one-layout template. -/
theorem c3_title_always_layout_zero_witness :
    ((⟨[⟨"A", []⟩], []⟩ : Pres)).layouts ≠ [] ∧
    (layoutIdxTrace
        (createPresentation ⟨[⟨"A", []⟩], []⟩ ⟨"T", []⟩ "d")).head? = some 0 :=
  ⟨by decide, c3_title_always_layout_zero ⟨[⟨"A", []⟩], []⟩ ⟨"T", []⟩ "d" (by decide)⟩

/-- C6: for every template with a nonempty layout catalog, assembly removes
    every pre-existing slide (the result does not depend on the template's
    slide sequence), preserves the layout catalog unchanged, and produces
    exactly 1 + number-of-slide-specs slides. -/
theorem c6_assembly_slides_and_layouts (tpl : Pres) (o : Outline) (d : String)
    (h : tpl.layouts ≠ []) :
    createPresentation tpl o d = createPresentation ⟨tpl.layouts, []⟩ o d ∧
    (∀ st, createPresentation tpl o d = some st →
      st.pres.layouts = tpl.layouts ∧
      st.pres.slides.length = 1 + o.slides.length) := by
  obtain ⟨layouts, slides⟩ := tpl
  cases layouts with
  | nil => exact absurd rfl h
  | cons l0 ls =>
    constructor
    · rw [createPresentation_cons, createPresentation_cons]
    · intro st hst
      rw [createPresentation_cons] at hst
      have hb := Option.some.inj hst
      subst hb
      constructor
      · rw [foldl_ccs_layouts]
      · rw [foldl_ccs_len]
        simp [Nat.add_comm]

/-- C6 witness: a one-layout template carrying 5 pre-existing slides and a
    one-entry outline. -/
theorem c6_assembly_slides_and_layouts_witness :
    ((⟨[⟨"L0", []⟩], List.replicate 5 ⟨0, [], none⟩⟩ : Pres)).layouts ≠ [] ∧
    (createPresentation ⟨[⟨"L0", []⟩], List.replicate 5 ⟨0, [], none⟩⟩
        ⟨"R", [⟨"Intro", ["P1", "P2"], none⟩]⟩ "d"
      = createPresentation ⟨[⟨"L0", []⟩], []⟩
          ⟨"R", [⟨"Intro", ["P1", "P2"], none⟩]⟩ "d") ∧
    (∀ st, createPresentation ⟨[⟨"L0", []⟩], List.replicate 5 ⟨0, [], none⟩⟩
        ⟨"R", [⟨"Intro", ["P1", "P2"], none⟩]⟩ "d" = some st →
      st.pres.layouts = [⟨"L0", []⟩] ∧
      st.pres.slides.length = 1 + 1) :=
  ⟨by decide,
   (c6_assembly_slides_and_layouts _ _ _ (by decide)).1,
   (c6_assembly_slides_and_layouts _ _ _ (by decide)).2⟩

/-- C1: for every content slide spec with at least one point, the created
    slide always carries the body — some shape of the appended slide ends
    with the points (plain or bulleted); and when strategies (1)-(5) all
    fail (no placeholder accepted by the four placeholder strategies and no
    alternative text frame), the terminal fallback appends the synthesized
    free-floating text box at the fixed default position
    (1in, 2in, 8in, 4in in EMU) holding the bulleted points. -/
theorem c1_body_never_dropped (st : GenState) (sd : SlideSpec)
    (shapes : List Shape) (h : sd.points ≠ []) :
    lastSlideCarriesBody sd.points (createContentSlide st sd) = true ∧
    (placeholderSearch shapes = none → altFrameSearch shapes sd.title = none →
      resolveAndWriteBody shapes sd.title sd.points
        = shapes ++ [newTextBox sd.points]) ∧
    newTextBox sd.points
      = ⟨false, 0, "TextBox", true, bulleted sd.points,
         some (914400, 1828800, 7315200, 3657600)⟩ := by
  refine ⟨?_, ?_, rfl⟩
  · have hne : sd.points.isEmpty = false := by
      cases hp : sd.points with
      | nil => exact absurd hp h
      | cons a l => rfl
    unfold lastSlideCarriesBody
    rw [(ccs_slides st sd).1, List.getLast?_concat]
    simp only [hne, Bool.false_eq_true, if_false]
    obtain ⟨sh, hmem, hcb⟩ := resolve_carries
      (writeTitle (getSmartLayout st sd).2.2.shapes sd.title) sd.title sd.points
    exact List.any_eq_true.mpr ⟨sh, hmem, hcb⟩
  · intro h1 h2
    unfold resolveAndWriteBody
    rw [h1, h2]

/-- C1 witness: a slide spec with one point on a layout with no shapes at
    all, so every strategy fails and the text box is synthesized. -/
theorem c1_body_never_dropped_witness :
    ((⟨"T", ["A"], none⟩ : SlideSpec).points ≠ []) ∧
    lastSlideCarriesBody ["A"]
        (createContentSlide ⟨⟨[], []⟩, [], 0⟩ ⟨"T", ["A"], none⟩) = true ∧
    resolveAndWriteBody [] "T" ["A"] = [] ++ [newTextBox ["A"]] ∧
    newTextBox ["A"]
      = ⟨false, 0, "TextBox", true, bulleted ["A"],
         some (914400, 1828800, 7315200, 3657600)⟩ :=
  ⟨by decide,
   (c1_body_never_dropped ⟨⟨[], []⟩, [], 0⟩ ⟨"T", ["A"], none⟩ [] (by decide)).1,
   (c1_body_never_dropped ⟨⟨[], []⟩, [], 0⟩ ⟨"T", ["A"], none⟩ [] (by decide)).2.1 rfl rfl,
   (c1_body_never_dropped ⟨⟨[], []⟩, [], 0⟩ ⟨"T", ["A"], none⟩ [] (by decide)).2.2⟩

theorem placeholderSearch_lt (shapes : List Shape) (i : Nat)
    (h : placeholderSearch shapes = some i) : i < shapes.length := by
  unfold placeholderSearch at h
  cases h1 : findFirst strat1 shapes with
  | some j =>
    rw [h1] at h
    cases h
    exact (findFirst_spec strat1 defaultShape shapes i h1).1
  | none =>
    rw [h1] at h
    cases h2 : findFirst strat2 shapes with
    | some j =>
      rw [h2] at h
      cases h
      exact (findFirst_spec strat2 defaultShape shapes i h2).1
    | none =>
      rw [h2] at h
      cases h3 : findFirst strat3 shapes with
      | some j =>
        rw [h3] at h
        cases h
        exact (findFirst_spec strat3 defaultShape shapes i h3).1
      | none =>
        rw [h3] at h
        exact (findFirst_spec strat4 defaultShape shapes i h).1

/-- C4 amended: writing points `["A","B","C"]` and reading the body back
    yields `"A","B","C"` (unprefixed, after clearing) when the region was
    resolved by strategies (1)-(4); yields the bulleted `"• A","• B","• C"`
    in *both* branches of strategy (5) — after clearing in the
    short-existing-text branch, appended after the pre-existing paragraphs in
    the append branch; and yields the bulleted texts in the synthesized text
    box of strategy (6). -/
theorem c4_roundtrip_amended (shapes : List Shape) (title : String) :
    (∀ i, placeholderSearch shapes = some i →
      ((resolveAndWriteBody shapes title ["A", "B", "C"]).getD i defaultShape).paragraphs
        = ["A", "B", "C"]) ∧
    (placeholderSearch shapes = none →
     ∀ j, altFrameSearch shapes title = some j →
      ((resolveAndWriteBody shapes title ["A", "B", "C"]).getD j defaultShape).paragraphs
        = (if (trimStr (shapeText (shapes.getD j defaultShape))).length < 10
           then ["• A", "• B", "• C"]
           else (shapes.getD j defaultShape).paragraphs ++ ["• A", "• B", "• C"])) ∧
    (placeholderSearch shapes = none → altFrameSearch shapes title = none →
      resolveAndWriteBody shapes title ["A", "B", "C"]
        = shapes ++ [newTextBox ["A", "B", "C"]] ∧
      (newTextBox ["A", "B", "C"]).paragraphs = ["• A", "• B", "• C"]) := by
  refine ⟨?_, ?_, ?_⟩
  · intro i hi
    simp only [resolveAndWriteBody, hi]
    exact (writeAt_getD shapes i ["A", "B", "C"] (placeholderSearch_lt shapes i hi)).2
  · intro h0 j hj
    simp only [resolveAndWriteBody, h0, hj]
    have hlt : j < shapes.length :=
      (findFirst_spec (altFrame title) defaultShape shapes j hj).1
    by_cases hshort : (trimStr (shapeText (shapes.getD j defaultShape))).length < 10
    · simp only [if_pos hshort]
      exact (writeAt_getD shapes j (bulleted ["A", "B", "C"]) hlt).2
    · simp only [if_neg hshort]
      exact (writeAt_getD shapes j
        ((shapes.getD j defaultShape).paragraphs ++ bulleted ["A", "B", "C"]) hlt).2
  · intro h1 h2
    simp only [resolveAndWriteBody, h1, h2]
    exact ⟨trivial, rfl⟩

/-- C4 amended witness: strategy 1 (a standard idx-1 placeholder), the
    strategy-5 short branch (a lone free text frame with short text), and
    strategy 6 (no shapes at all). -/
theorem c4_roundtrip_amended_witness :
    ((resolveAndWriteBody [⟨true, 1, "Content Placeholder 2", true, [], none⟩] "T"
        ["A", "B", "C"]).getD 0 defaultShape).paragraphs = ["A", "B", "C"] ∧
    ((resolveAndWriteBody [⟨false, 0, "box", true, [""], none⟩] "T"
        ["A", "B", "C"]).getD 0 defaultShape).paragraphs
      = (if (trimStr (shapeText
              (([⟨false, 0, "box", true, [""], none⟩] : List Shape).getD 0
                defaultShape))).length < 10
         then ["• A", "• B", "• C"]
         else (([⟨false, 0, "box", true, [""], none⟩] : List Shape).getD 0
                defaultShape).paragraphs ++ ["• A", "• B", "• C"]) ∧
    (resolveAndWriteBody ([] : List Shape) "T" ["A", "B", "C"]
        = [] ++ [newTextBox ["A", "B", "C"]] ∧
      (newTextBox ["A", "B", "C"]).paragraphs = ["• A", "• B", "• C"]) :=
  ⟨(c4_roundtrip_amended [⟨true, 1, "Content Placeholder 2", true, [], none⟩] "T").1
      0 rfl,
   (c4_roundtrip_amended [⟨false, 0, "box", true, [""], none⟩] "T").2.1 rfl 0 rfl,
   (c4_roundtrip_amended [] "T").2.2 rfl rfl⟩

/-- C9: for a slide spec with no points, the body-resolution chain is never
    entered: the created slide is appended carrying exactly the layout's
    shapes with only the title written (and the notes if present), the shape
    count is unchanged (no text box synthesized), and every non-title shape
    is untouched (nothing searched, cleared or written). -/
theorem c9_empty_points_no_body_write (st : GenState) (sd : SlideSpec)
    (h : sd.points = []) :
    (createContentSlide st sd).pres.slides
      = st.pres.slides ++
        [⟨(getSmartLayout st sd).2.1,
          writeTitle (getSmartLayout st sd).2.2.shapes sd.title,
          effectiveNotes sd.notes⟩] ∧
    (writeTitle (getSmartLayout st sd).2.2.shapes sd.title).length
      = (getSmartLayout st sd).2.2.shapes.length ∧
    (writeTitle (getSmartLayout st sd).2.2.shapes sd.title).filter nonTitlePh
      = (getSmartLayout st sd).2.2.shapes.filter nonTitlePh := by
  refine ⟨?_, writeTitle_length _ _, writeTitle_filter _ _⟩
  rw [(ccs_slides st sd).1, h]
  simp

/-- C9 witness. -/
theorem c9_empty_points_no_body_write_witness :
    ((⟨"T", [], none⟩ : SlideSpec).points = []) ∧
    ((createContentSlide ⟨⟨[], []⟩, [], 0⟩ ⟨"T", [], none⟩).pres.slides
      = [] ++
        [⟨(getSmartLayout ⟨⟨[], []⟩, [], 0⟩ ⟨"T", [], none⟩).2.1,
          writeTitle (getSmartLayout ⟨⟨[], []⟩, [], 0⟩ ⟨"T", [], none⟩).2.2.shapes "T",
          effectiveNotes none⟩] ∧
      (writeTitle (getSmartLayout ⟨⟨[], []⟩, [], 0⟩ ⟨"T", [], none⟩).2.2.shapes "T").length
        = (getSmartLayout ⟨⟨[], []⟩, [], 0⟩ ⟨"T", [], none⟩).2.2.shapes.length ∧
      (writeTitle (getSmartLayout ⟨⟨[], []⟩, [], 0⟩ ⟨"T", [], none⟩).2.2.shapes "T").filter
          nonTitlePh
        = (getSmartLayout ⟨⟨[], []⟩, [], 0⟩ ⟨"T", [], none⟩).2.2.shapes.filter nonTitlePh) :=
  ⟨rfl, c9_empty_points_no_body_write ⟨⟨[], []⟩, [], 0⟩ ⟨"T", [], none⟩ rfl⟩

/-- C5: (a) whenever classification admits no content layout and the
    catalog has at least two layouts, the degraded fallback yields the
    nonempty set of layouts at exactly the indices 1 .. min(3, total) − 1;
    (b) a one-layout document binds the title slide and every content slide
    to that single layout (index 0). -/
theorem c5_degraded_fallback_and_single_layout (layouts : List Layout)
    (o : Outline) (d : String) :
    (layouts.enum.filter classPred = [] → 2 ≤ layouts.length →
      identifyContentLayouts layouts ≠ [] ∧
      (identifyContentLayouts layouts).map Prod.fst
        = List.range' 1 (min layouts.length 3 - 1)) ∧
    (layouts.length = 1 →
      layoutIdxTrace (createPresentation ⟨layouts, []⟩ o d)
        = List.replicate (1 + o.slides.length) 0) := by
  constructor
  · intro hz h2
    unfold identifyContentLayouts
    rw [hz]
    simp only [List.isEmpty_nil, if_true]
    have hm : min layouts.length 3 = 2 ∨ min layouts.length 3 = 3 := by omega
    rcases hm with hm | hm
    · have hfb : fallbackContentLayouts layouts
          = [(1, layouts.getD 1 defaultLayout)] := by
        unfold fallbackContentLayouts
        rw [hm]
        rfl
      rw [hfb, hm]
      exact ⟨by simp, rfl⟩
    · have hfb : fallbackContentLayouts layouts
          = [(1, layouts.getD 1 defaultLayout), (2, layouts.getD 2 defaultLayout)] := by
        unfold fallbackContentLayouts
        rw [hm]
        rfl
      rw [hfb, hm]
      exact ⟨by simp, rfl⟩
  · intro h1
    obtain ⟨l0, rfl⟩ := List.length_eq_one.mp h1
    rw [createPresentation_cons]
    unfold layoutIdxTrace
    apply List.eq_replicate_iff.mpr
    constructor
    · rw [List.length_map, foldl_ccs_len]
      simp [Nat.add_comm]
    · intro b hb
      obtain ⟨s, hs, rfl⟩ := List.mem_map.mp hb
      refine foldl_ccs_idx_zero o.slides
        ⟨⟨[l0], [mkTitleSlide l0 o.title ("Generated on " ++ d)]⟩,
         identifyContentLayouts [l0], 0⟩
        (icl_singleton_fst l0) rfl ?_ s hs
      intro s2 hs2
      rw [List.mem_singleton.mp hs2]
      rfl

/-- C5 witness: a two-layout all-title catalog for the degraded fallback,
    and a one-layout template with a one-entry outline. -/
theorem c5_degraded_fallback_and_single_layout_witness :
    (([⟨"Title Slide", []⟩, ⟨"Title Only", []⟩] : List Layout).enum.filter classPred
      = []) ∧
    (2 ≤ ([⟨"Title Slide", []⟩, ⟨"Title Only", []⟩] : List Layout).length) ∧
    (identifyContentLayouts [⟨"Title Slide", []⟩, ⟨"Title Only", []⟩] ≠ [] ∧
     (identifyContentLayouts [⟨"Title Slide", []⟩, ⟨"Title Only", []⟩]).map Prod.fst
       = List.range' 1
           (min ([⟨"Title Slide", []⟩, ⟨"Title Only", []⟩] : List Layout).length 3 - 1)) ∧
    (([⟨"Title Slide", []⟩] : List Layout).length = 1) ∧
    layoutIdxTrace
        (createPresentation ⟨[⟨"Title Slide", []⟩], []⟩ ⟨"T", [⟨"S", ["p"], none⟩]⟩ "d")
      = List.replicate (1 + 1) 0 :=
  ⟨by decide, by decide,
   (c5_degraded_fallback_and_single_layout
      [⟨"Title Slide", []⟩, ⟨"Title Only", []⟩] ⟨"T", []⟩ "d").1 (by decide) (by decide),
   rfl,
   (c5_degraded_fallback_and_single_layout
      [⟨"Title Slide", []⟩] ⟨"T", [⟨"S", ["p"], none⟩]⟩ "d").2 rfl⟩
